import Mathlib

/-!
Verification development for the INDI property engine (`src/libs/indibase/basedevice.cpp`).

The definitions below are a shallow embedding of `BaseDevice` / `BaseDevicePrivate`:
the device registry state (`BaseDeviceState`), property lookup (`getProperty`),
definition-element processing (`buildProp`), update-element processing (`setValue`,
`applyUpdates` for the `for_property` helper, `processOneBlob`/`setBLOB` for the
BLOB pipeline) and `registerProperty`.

Modelling conventions, stated once here and referenced from the definitions:
* Wire attributes are modelled post-parse. The XML layer (`lilxml`) and the numeric
  parsers (`indicom`) are not under `src/`; an attribute that may be absent is an
  `Option`, and numeric/text payloads carry the already-parsed value. Floating point
  numbers appear in the claims only through assignment and equality, so `Int` stands
  in for `double`.
* `INDI::Property` handles share their underlying vector (mutation through a handle
  returned by `getProperty` is visible in the registry list `pAll`); this is embedded
  by replacing the first matching list entry (`mapFirst`).
* The mediator (dispatcher) is embedded as an event trace; `hasMediator` models the
  nullable observer pointer.
* zlib's `uncompress` and the shared-buffer side channel (`attachBlobByUid`) are
  external libraries; they enter as explicit function parameters `inflate` and `env`.
* `malloc`/`realloc` are modelled as always succeeding (allocation failure is not the
  subject of any claim).
-/

namespace INDI

/-- Property/state enumeration `IPState` from `indiapi.h`: Idle, Ok, Busy, Alert. -/
inductive IPState
  | Idle
  | Ok
  | Busy
  | Alert
deriving DecidableEq

/-- Switch state `ISState`: On / Off. -/
inductive ISState
  | On
  | Off
deriving DecidableEq

/-- Permission `IPerm`: read-only, write-only, read-write. -/
inductive IPerm
  | RO
  | WO
  | RW
deriving DecidableEq

/-- Property kind `INDI_PROPERTY_TYPE`: the five widget kinds plus `INDI_UNKNOWN`. -/
inductive PropType
  | Number
  | Switch
  | Text
  | Light
  | Blob
  | Unknown
deriving DecidableEq

/-- One widget (`INumber`/`ISwitch`/`IText`/`ILight`/`IBLOB` flattened into a single
record; the owning property's kind selects which fields are meaningful, since all
widgets of a property share its kind). -/
structure Widget where
  name : String := ""
  label : String := ""
  value : Int := 0
  min : Int := 0
  max : Int := 0
  step : Int := 0
  format : String := ""
  text : String := ""
  sstate : ISState := ISState.Off
  lstate : IPState := IPState.Idle
  blob : List Nat := []
  bloblen : Nat := 0
  size : Nat := 0
deriving DecidableEq

/-- One property container (`INDI::Property` wrapping a `XXXVectorProperty`). -/
structure IProperty where
  name : String := ""
  deviceName : String := ""
  label : String := ""
  group : String := ""
  ptype : PropType := PropType.Unknown
  perm : IPerm := IPerm.RO
  state : IPState := IPState.Idle
  timeout : Int := 0
  registered : Bool := true
  dynamic : Bool := false
  widgets : List Widget := []
deriving DecidableEq

/-- Dispatcher (mediator) notifications, recorded as an event trace. `newBLOB`
carries an `Option` because `BaseDevicePrivate::setBLOB` may invoke it with a
null widget pointer on the zero-size path. -/
inductive Event
  | newProperty (name : String)
  | newNumber (name : String)
  | newSwitch (name : String)
  | newText (name : String)
  | newLight (name : String)
  | newBLOB (widgetName : Option String)
  | newMessage (index : Nat)
  | watchCallback (name : String)
deriving DecidableEq

/-- Failure outcomes of `setValue`/`setBLOB` (the `-1` returns, distinguished by
their `errmsg` text). `nullWidgetAccess` marks the undefined behaviour of
dereferencing a null widget pointer in `setBLOB`. -/
inductive DevError
  | nameMissing
  | badTag
  | propertyNotFound
  | stateError (token : String)
  | noValidMembers
  | nullWidgetAccess
  | compressionError (code : Int)
deriving DecidableEq

/-- State of one `BaseDevice` (the device registry): the fields of
`BaseDevicePrivate` that the claims touch. -/
structure BaseDeviceState where
  deviceName : String := ""
  pAll : List IProperty := []
  messageLog : List String := []
  watchedNames : List String := []
  hasMediator : Bool := true
deriving DecidableEq

/-- Replace the first list element satisfying `q` by its image under `f`
(embeds in-place mutation of the element found by a first-match scan). -/
def mapFirst (q : α → Bool) (f : α → α) : List α → List α
  | [] => []
  | x :: xs => if q x then f x :: xs else x :: mapFirst q f xs

/-- The visibility test of `BaseDevice::getProperty`: kind matches (or requested
kind is `INDI_UNKNOWN`), the entry is registered, and the name matches exactly. -/
def visibleMatch (n : String) (t : PropType) (p : IProperty) : Bool :=
  decide ((t = p.ptype ∨ t = PropType.Unknown) ∧ p.registered = true ∧ p.name = n)

/-- Embeds `BaseDevice::getProperty` (basedevice.cpp lines 131-149): scan `pAll`,
skip entries of the wrong kind, skip entries with `registered == false`, return
the first name match. -/
def getProperty (props : List IProperty) (n : String) (t : PropType) : Option IProperty :=
  match props with
  | [] => none
  | p :: rest =>
    if t ≠ p.ptype ∧ t ≠ PropType.Unknown then getProperty rest n t
    else if p.registered = false then getProperty rest n t
    else if p.name = n then some p
    else getProperty rest n t

/-- Embeds the typed getter `BaseDevice::getNumber` (built on `getRawProperty`,
which is `getProperty(name, INDI_NUMBER)` followed by extraction of the wrapped
vector; a null return is `none`). -/
def getNumber (props : List IProperty) (n : String) : Option IProperty :=
  getProperty props n PropType.Number

/-- Embeds `BaseDevice::getText`. -/
def getText (props : List IProperty) (n : String) : Option IProperty :=
  getProperty props n PropType.Text

/-- Embeds `BaseDevice::getSwitch`. -/
def getSwitch (props : List IProperty) (n : String) : Option IProperty :=
  getProperty props n PropType.Switch

/-- Embeds `BaseDevice::getLight`. -/
def getLight (props : List IProperty) (n : String) : Option IProperty :=
  getProperty props n PropType.Light

/-- Embeds `BaseDevice::getBLOB`. -/
def getBLOB (props : List IProperty) (n : String) : Option IProperty :=
  getProperty props n PropType.Blob

/-- Embeds `PropertyView::findWidgetByName`: first widget with an exact name match. -/
def findWidgetByName (ws : List Widget) (n : String) : Option Widget :=
  ws.find? (fun w => w.name == n)

/-- Modelled from the spec: `crackIPState` (lilxml/indicom, not under `src/`) —
the wire state tokens form the closed enumeration Idle/Ok/Busy/Alert (spec 4.1
and 6); an unknown token is an error, not a default. `LilXmlValue::toIPState`
reports failure through its `ok` out-parameter and returns the Idle state as its
fallback value, embedded here as `Option` with `Idle` substituted at the call
sites that ignore failure. -/
def crackIPState (s : String) : Option IPState :=
  if s = "Idle" then some IPState.Idle
  else if s = "Ok" then some IPState.Ok
  else if s = "Busy" then some IPState.Busy
  else if s = "Alert" then some IPState.Alert
  else none

/-- Modelled from the spec: `BaseDevicePrivate::addProperty` is declared in
`basedevice_p.h`, which is not under `src/`. Spec 4.3: "appends to the owned
list if no property of that name exists; otherwise fails with `DuplicateError`.
After insertion, invokes any matching watch callback exactly once". The failure
leaves the registry unchanged; the defined-notification is fired separately by
the callers in `basedevice.cpp` themselves. -/
def addProperty (s : BaseDeviceState) (p : IProperty) : BaseDeviceState × List Event :=
  if s.pAll.any (fun q => q.name == p.name) then (s, [])
  else ({ s with pAll := s.pAll ++ [p] },
        if s.watchedNames.contains p.name then [Event.watchCallback p.name] else [])

/-- One child element of a definition element (`defNumber`/`defSwitch`/`defText`/
`defLight`/`defBLOB`), attributes post-parse. A missing `name`/`label` attribute
reads as the empty string, as in `LilXmlElement::getAttribute`. -/
structure DefChild where
  tag : String := ""
  name : String := ""
  label : String := ""
  format : String := ""
  min : Int := 0
  max : Int := 0
  step : Int := 0
  value : Int := 0
  sstate : ISState := ISState.Off
  lstate : IPState := IPState.Idle
  text : String := ""
deriving DecidableEq

/-- A definition element (`defXxxVector`). `device` and `name` are `Option`
because `crackDN` rejects elements lacking them. -/
structure DefElement where
  tag : String := ""
  device : Option String := none
  name : Option String := none
  label : String := ""
  group : String := ""
  stateTok : Option String := none
  timeoutVal : Option Int := none
  perm : IPerm := IPerm.RO
  children : List DefChild := []
deriving DecidableEq

/-- The `tagTypeName` table of `BaseDevice::buildProp`. -/
def defTagType (tag : String) : Option PropType :=
  if tag = "defNumberVector" then some PropType.Number
  else if tag = "defSwitchVector" then some PropType.Switch
  else if tag = "defTextVector" then some PropType.Text
  else if tag = "defLightVector" then some PropType.Light
  else if tag = "defBLOBVector" then some PropType.Blob
  else none

/-- The per-kind child tag used by `getElementsByTagName` in `buildProp`. -/
def defChildTag : PropType → String
  | PropType.Number => "defNumber"
  | PropType.Switch => "defSwitch"
  | PropType.Text => "defText"
  | PropType.Light => "defLight"
  | PropType.Blob => "defBLOB"
  | PropType.Unknown => ""

/-- Widget construction from one definition child, per kind (the five
`case INDI_XXX` loop bodies of `buildProp`). -/
def defWidget (t : PropType) (c : DefChild) : Widget :=
  match t with
  | PropType.Number =>
    { name := c.name, label := c.label, format := c.format,
      min := c.min, max := c.max, step := c.step, value := c.value }
  | PropType.Switch => { name := c.name, label := c.label, sstate := c.sstate }
  | PropType.Text => { name := c.name, label := c.label, text := c.text }
  | PropType.Light => { name := c.name, label := c.label, lstate := c.lstate }
  | PropType.Blob => { name := c.name, label := c.label, format := c.format }
  | PropType.Unknown => { name := c.name }

/-- The widget list built by `buildProp`: children of the matching per-kind tag,
each pushed only when its name is not empty (`if (!widget.isNameMatch(""))`). -/
def buildWidgets (t : PropType) (children : List DefChild) : List Widget :=
  (children.filter (fun c => c.tag == defChildTag t)).filterMap
    (fun c => let w := defWidget t c; if w.name = "" then none else some w)

/-- Return code of `buildProp`: `-1` (parse/tag error), `INDI_PROPERTY_DUPLICATED`
(value from basedevice.h, not under `src/`, kept abstract), or `0` (covering both
the invalid/empty drops and successful addition — the C++ function returns the
same `0` for all three). -/
inductive BuildRet
  | errorRet
  | duplicatedRet
  | zeroRet
deriving DecidableEq

/-- Embeds `BaseDevice::buildProp` (basedevice.cpp lines 278-467).
Steps, in source order: the `crackDN` device/name presence check (crackDN lives
in lilxml.c, not under `src/`; modelled from spec 4.4 step 1), the tag table,
the duplicate check through `getProperty(name)` (whose defaulted second argument
is `INDI_UNKNOWN`, basedevice.h), the device-name adoption when still empty,
widget construction, the empty-property drop, metadata population (permission
skipped for Light), `addProperty`, and the unconditional `newProperty`
notification when a mediator is attached. -/
def buildProp (s : BaseDeviceState) (el : DefElement) (isDynamic : Bool) :
    BaseDeviceState × List Event × BuildRet :=
  if el.device = none ∨ el.name = none then (s, [], BuildRet.errorRet)
  else
    match defTagType el.tag with
    | none => (s, [], BuildRet.errorRet)
    | some t =>
      let propertyName := el.name.getD ""
      if (getProperty s.pAll propertyName PropType.Unknown).isSome then
        (s, [], BuildRet.duplicatedRet)
      else
        let s1 := if s.deviceName = "" then { s with deviceName := el.device.getD "" } else s
        let ws := buildWidgets t el.children
        if ws.isEmpty then (s1, [], BuildRet.zeroRet)
        else
          let property : IProperty :=
            { name := propertyName
              deviceName := s1.deviceName
              label := el.label
              group := el.group
              ptype := t
              perm := if t ≠ PropType.Light then el.perm else IPerm.RO
              state := (el.stateTok.bind crackIPState).getD IPState.Idle
              timeout := el.timeoutVal.getD 0
              registered := true
              dynamic := isDynamic
              widgets := ws }
          let r := addProperty s1 property
          (r.fst,
           r.snd ++ (if r.fst.hasMediator then [Event.newProperty property.name] else []),
           BuildRet.zeroRet)

/-- One child element of an update element. For the scalar kinds `for_property`
iterates all children and looks them up by the `name` attribute (missing reads
as `""`); for BLOB (`oneBLOB` children) the presence of `name`/`format`/`size`
matters, hence the `Option`s. `content` holds the base64-decoded payload bytes
(the base64 codec is not under `src/`); `size` is the `toInt` of the size
attribute. -/
structure SetChild where
  tag : String := ""
  nameAttr : Option String := none
  value : Int := 0
  minAttr : Option Int := none
  maxAttr : Option Int := none
  sstate : ISState := ISState.Off
  lstate : IPState := IPState.Idle
  text : String := ""
  format : Option String := none
  sizeAttr : Option Nat := none
  attachedId : Option Nat := none
  attachDirect : Bool := false
  content : List Nat := []
deriving DecidableEq

/-- An update element (`setXxxVector`). -/
structure SetElement where
  tag : String := ""
  name : Option String := none
  message : Option String := none
  stateTok : Option String := none
  timeoutVal : Option Int := none
  children : List SetChild := []
deriving DecidableEq

/-- The `tagTypeName` table of `BaseDevice::setValue`. -/
def setTagType (tag : String) : Option PropType :=
  if tag = "setNumberVector" then some PropType.Number
  else if tag = "setSwitchVector" then some PropType.Switch
  else if tag = "setTextVector" then some PropType.Text
  else if tag = "setLightVector" then some PropType.Light
  else if tag = "setBLOBVector" then some PropType.Blob
  else none

/-- The per-kind update lambdas passed to `for_property` in `setValue`:
Number sets the value and, when the attributes are present, min/max; Switch,
Text and Light set their single field. The widget name is never touched. -/
def applyChild (t : PropType) (c : SetChild) (w : Widget) : Widget :=
  match t with
  | PropType.Number =>
    { w with value := c.value, min := c.minAttr.getD w.min, max := c.maxAttr.getD w.max }
  | PropType.Switch => { w with sstate := c.sstate }
  | PropType.Text => { w with text := c.text }
  | PropType.Light => { w with lstate := c.lstate }
  | _ => w

/-- Embeds the `for_property` helper (basedevice.cpp lines 480-499): for each
child element, look up the widget by the child's name attribute and apply the
update only when the lookup succeeds (`if (item) function(element, item)`);
unknown names fall through. `emitUpdate` has no effect on the registry state. -/
def applyUpdates (t : PropType) (children : List SetChild) (ws : List Widget) : List Widget :=
  children.foldl
    (fun acc c => mapFirst (fun w => w.name == c.nameAttr.getD "") (applyChild t c) acc) ws

/-- Embeds `BaseDevice::checkMessage`/`doMessage`/`addMessage`: when a `message`
attribute is present the text is appended to the message log (`push_back`) and
`newMessage` fires with the tail index. The timestamp prefix formatting
(`timestamp()` from indicom, not under `src/`) is omitted: the log entry stands
for the formatted line. -/
def checkMessage (s : BaseDeviceState) (msg : Option String) : BaseDeviceState × List Event :=
  match msg with
  | none => (s, [])
  | some m =>
    ({ s with messageLog := s.messageLog ++ [m] },
     if s.hasMediator then [Event.newMessage s.messageLog.length] else [])

/-- Embeds `format.endsWith(".z")` (`LilXmlValue::endsWith`, lilxml): suffix
test for `".z"`, implemented over the character list so that it evaluates by
reduction. -/
def endsWithZ (s : String) : Bool := List.isSuffixOf ".z".data s.data

/-- Strips the trailing `".z"`: `format.toString().substr(0, format.lastIndexOf(".z"))`.
When the string ends with `".z"`, its last occurrence starts exactly two
characters before the end (no later occurrence can exist), so the prefix taken
is the string minus its final two characters. -/
def stripZ (f : String) : String := String.mk f.data.dropLast.dropLast

/-- Result of the BLOB pipeline: the (possibly partially) mutated widget list,
the emitted events, and the error of the `-1` return, if any. -/
structure BlobOutcome where
  widgets : List Widget
  events : List Event
  err : Option DevError
deriving DecidableEq

/-- Embeds one iteration of the `oneBLOB` loop in `BaseDevicePrivate::setBLOB`
(basedevice.cpp lines 630-721). Source order: widget lookup by name, the
`name`/`format`/`size` presence check, the zero-size early `continue` (callback
still fired, with the possibly-null widget), `widget->setSize(size)` — a null
widget pointer here is the invalid access, `nullWidgetAccess` — then payload
installation (shared-buffer direct / shared-buffer copy / inline base64), then
for a format ending in `".z"`: format stripped first, then `uncompress` into a
buffer of the declared size; failure returns `-1` carrying the zlib code with
the stripped format left in place, success installs the inflated bytes and
their length. `inflate cap src srcLen` stands for
`uncompress(dest, &cap, src, srcLen)`; `env` is the shared-buffer side channel
`attachBlobByUid`. -/
def processOneBlob (inflate : Nat → List Nat → Nat → Except Int (List Nat))
    (env : Nat → List Nat) (hasMediator : Bool)
    (ws : List Widget) (c : SetChild) : BlobOutcome :=
  let widget? := findWidgetByName ws (c.nameAttr.getD "")
  if c.nameAttr = none ∨ c.format = none ∨ c.sizeAttr = none then
    { widgets := ws, events := [], err := some DevError.noValidMembers }
  else if c.sizeAttr = some 0 then
    { widgets := ws,
      events := if hasMediator then [Event.newBLOB (widget?.map (fun w => w.name))] else [],
      err := none }
  else
    match widget? with
    | none => { widgets := ws, events := [], err := some DevError.nullWidgetAccess }
    | some w0 =>
      let n := c.sizeAttr.getD 0
      let w1 := { w0 with size := n }
      let w2 :=
        match c.attachedId with
        | some uid =>
          if c.attachDirect then { w1 with blob := env uid, bloblen := n }
          else { w1 with blob := (env uid).take n, bloblen := n }
        | none => { w1 with blob := c.content, bloblen := c.content.length }
      let fmt := c.format.getD ""
      if endsWithZ fmt then
        let w3 := { w2 with format := stripZ fmt }
        match inflate w3.size w3.blob w3.bloblen with
        | Except.error r =>
          { widgets := mapFirst (fun x => x.name == w3.name) (fun _ => w3) ws,
            events := [], err := some (DevError.compressionError r) }
        | Except.ok plain =>
          let w4 := { w3 with size := plain.length, blob := plain }
          { widgets := mapFirst (fun x => x.name == w4.name) (fun _ => w4) ws,
            events := if hasMediator then [Event.newBLOB (some w4.name)] else [],
            err := none }
      else
        let w3 := { w2 with format := fmt }
        { widgets := mapFirst (fun x => x.name == w3.name) (fun _ => w3) ws,
          events := if hasMediator then [Event.newBLOB (some w3.name)] else [],
          err := none }

/-- Embeds the loop of `BaseDevicePrivate::setBLOB` over the `oneBLOB` children:
sequential processing, stopping with `-1` at the first failing child (earlier
mutations and events persist). -/
def setBLOB (inflate : Nat → List Nat → Nat → Except Int (List Nat))
    (env : Nat → List Nat) (hasMediator : Bool)
    (ws : List Widget) (cs : List SetChild) : BlobOutcome :=
  match cs with
  | [] => { widgets := ws, events := [], err := none }
  | c :: rest =>
    let r := processOneBlob inflate env hasMediator ws c
    match r.err with
    | some e => { widgets := r.widgets, events := r.events, err := some e }
    | none =>
      let r2 := setBLOB inflate env hasMediator r.widgets rest
      { widgets := r2.widgets, events := r.events ++ r2.events, err := r2.err }

/-- The payload bytes installed in the widget by `setBLOB` before any
inflation, per attachment mode: shared-buffer direct (the whole side-channel
buffer), shared-buffer copy (`memcpy` of `size` bytes), or inline base64 (the
decoded content). Mirrors the `attached-data-id` branch of `processOneBlob`. -/
def blobPayload (env : Nat → List Nat) (c : SetChild) : List Nat :=
  match c.attachedId with
  | some uid => if c.attachDirect then env uid else (env uid).take (c.sizeAttr.getD 0)
  | none => c.content

/-- The blob length recorded alongside `blobPayload` (`setBlobLen`): the size
attribute on both shared-buffer paths, the decoded byte count on the inline
path. -/
def blobPayloadLen (c : SetChild) : Nat :=
  match c.attachedId with
  | some _ => c.sizeAttr.getD 0
  | none => c.content.length

/-- Result of `setValue`: new registry state, event trace, error of a `-1`
return, if any. -/
structure SVOutcome where
  dstate : BaseDeviceState
  events : List Event
  err : Option DevError
deriving DecidableEq

/-- Embeds `BaseDevice::setValue` (basedevice.cpp lines 504-623). Source order:
the name-attribute presence check, `checkMessage`, the tag table, the lookup
`getProperty(name, kind)`, then — through the shared property handle, embedded
as replacement of the first visible match in `pAll` — (1) the state attribute:
`property.setState(root.getAttribute("state").toIPState(&ok))` executes before
`ok` is tested, so an absent or unparsable state token first overwrites the
state with the parser's Idle fallback and then returns `-1`; (2) the timeout,
set only when the attribute parses; (3) the per-kind widget updates through
`for_property` followed by the kind's mediator callback, or delegation to
`setBLOB` for BLOB vectors. -/
def setValue (inflate : Nat → List Nat → Nat → Except Int (List Nat))
    (env : Nat → List Nat) (s : BaseDeviceState) (el : SetElement) : SVOutcome :=
  match el.name with
  | none => { dstate := s, events := [], err := some DevError.nameMissing }
  | some propertyName =>
    let sm := checkMessage s el.message
    let s1 := sm.fst
    match setTagType el.tag with
    | none => { dstate := s1, events := sm.snd, err := some DevError.badTag }
    | some t =>
      match getProperty s1.pAll propertyName t with
      | none => { dstate := s1, events := sm.snd, err := some DevError.propertyNotFound }
      | some property0 =>
        match el.stateTok.bind crackIPState with
        | none =>
          let property1 := { property0 with state := IPState.Idle }
          { dstate :=
              { s1 with pAll := mapFirst (visibleMatch propertyName t) (fun _ => property1) s1.pAll },
            events := sm.snd,
            err := some (DevError.stateError (el.stateTok.getD "")) }
        | some st =>
          let property1 := { property0 with state := st }
          let property2 :=
            match el.timeoutVal with
            | some v => { property1 with timeout := v }
            | none => property1
          match t with
          | PropType.Blob =>
            let r := setBLOB inflate env s1.hasMediator property2.widgets
                       (el.children.filter (fun c => c.tag == "oneBLOB"))
            let pAllB := mapFirst (visibleMatch propertyName t)
              (fun _ => { property2 with widgets := r.widgets }) s1.pAll
            { dstate := { s1 with pAll := pAllB },
              events := sm.snd ++ r.events,
              err := r.err }
          | _ =>
            let property3 := { property2 with widgets := applyUpdates t el.children property2.widgets }
            let kindEvent :=
              if s1.hasMediator then
                [match t with
                 | PropType.Switch => Event.newSwitch propertyName
                 | PropType.Text => Event.newText propertyName
                 | PropType.Light => Event.newLight propertyName
                 | _ => Event.newNumber propertyName]
              else []
            { dstate :=
                { s1 with pAll := mapFirst (visibleMatch propertyName t) (fun _ => property3) s1.pAll },
              events := sm.snd ++ kindEvent,
              err := none }

/-- Helper of `registerProperty`: `pContainer.setRegistered(true)` applied to the
handle returned by `getProperty`, i.e. to the first visible match in `pAll`. -/
def setRegisteredOnFirst (n : String) (t : PropType) (props : List IProperty) : List IProperty :=
  mapFirst (visibleMatch n t) (fun q => { q with registered := true }) props

/-- Embeds `BaseDevice::registerProperty(INDI::Property &)` (basedevice.cpp lines
838-851): bail out on `INDI_UNKNOWN`, look the name+kind up through
`getProperty` (which skips `registered == false` entries), mark the found handle
registered, otherwise `addProperty`. -/
def registerProperty (s : BaseDeviceState) (p : IProperty) : BaseDeviceState × List Event :=
  if p.ptype = PropType.Unknown then (s, [])
  else
    match getProperty s.pAll p.name p.ptype with
    | some _ => ({ s with pAll := setRegisteredOnFirst p.name p.ptype s.pAll }, [])
    | none => addProperty s p

/-! Concrete instances used by the witness and counterexample theorems. -/

/-- Stand-in for zlib inflate that always fails with code -3 (Z_DATA_ERROR). -/
def inflateFail : Nat → List Nat → Nat → Except Int (List Nat) :=
  fun _ _ _ => Except.error (-3)

/-- Stand-in for zlib inflate that inflates the sample payload to the two-byte
plaintext `[7, 7]`. -/
def inflateOkTwo : Nat → List Nat → Nat → Except Int (List Nat) :=
  fun _ _ _ => Except.ok [7, 7]

/-- Empty shared-buffer side channel. -/
def envEmpty : Nat → List Nat := fun _ => []

/-- A device registry in its initial state. -/
def emptyDevice : BaseDeviceState := {}

/-- A number widget named `T` with value 7. -/
def exNumWidget : Widget := { name := "T", value := 7 }

/-- A registered Number property `P` in state Ok with timeout 5. -/
def exPropOk : IProperty :=
  { name := "P", deviceName := "A", ptype := PropType.Number, state := IPState.Ok,
    timeout := 5, widgets := [exNumWidget] }

/-- A device bound to name `A` holding `exPropOk`. -/
def exStateC1 : BaseDeviceState := { deviceName := "A", pAll := [exPropOk] }

/-- An update element for `P` carrying the invalid state token `Bogus`. -/
def exElemBogus : SetElement :=
  { tag := "setNumberVector", name := some "P", stateTok := some "Bogus" }

/-- A definition element for Number property `TEMP` with one widget of value `v`. -/
def exDefTemp (v : Int) : DefElement :=
  { tag := "defNumberVector", device := some "D", name := some "TEMP",
    stateTok := some "Ok", perm := IPerm.RW,
    children := [{ tag := "defNumber", name := "T", value := v }] }

/-- The registry after defining `TEMP` with value 5. -/
def exStateTemp : BaseDeviceState := (buildProp emptyDevice (exDefTemp 5) false).fst

/-- A device already bound to name `A` with no properties. -/
def exStateA : BaseDeviceState := { deviceName := "A" }

/-- A definition element carrying the device attribute `B` (different device). -/
def exDefOther : DefElement :=
  { tag := "defNumberVector", device := some "B", name := some "Q",
    children := [{ tag := "defNumber", name := "W", value := 1 }] }

/-- A definition element all of whose children have an empty name. -/
def exDefEmptyNames : DefElement :=
  { tag := "defTextVector", device := some "D", name := some "E",
    children := [{ tag := "defText", name := "", text := "x" }] }

/-- A BLOB widget named `B` with stored format `orig`. -/
def exBlobWidget : Widget := { name := "B", format := "orig" }

/-- A `oneBLOB` child with compressed format tag `fits.z` and a 3-byte payload. -/
def exBlobChildZ : SetChild :=
  { tag := "oneBLOB", nameAttr := some "B", format := some "fits.z",
    sizeAttr := some 3, content := [1, 2, 3] }

/-- A `oneBLOB` child with a zero size attribute. -/
def exBlobChildZero : SetChild :=
  { tag := "oneBLOB", nameAttr := some "B", format := some "fits",
    sizeAttr := some 0, content := [9] }

/-- A ghost entry: Number property `P` with `registered = false`. -/
def exGhost : IProperty := { name := "P", ptype := PropType.Number, registered := false }

/-- The same property shape as `exGhost` but registered (a live handle). -/
def exLive : IProperty := { name := "P", ptype := PropType.Number, registered := true }

/-- A registry holding only the ghost entry. -/
def exStateGhost : BaseDeviceState := { pAll := [exGhost] }

/-- An update child addressing the widget name `Y` (unknown in the sample lists). -/
def exChildY : SetChild := { nameAttr := some "Y", value := 3 }

/-! Helper lemmas shared by the claim theorems. -/

theorem mapFirst_of_find?_none (q : α → Bool) (f : α → α) (l : List α)
    (h : l.find? q = none) : mapFirst q f l = l := by
  induction l with
  | nil => rfl
  | cons x xs ih =>
    by_cases hx : q x
    · rw [List.find?_cons_of_pos _ hx] at h; exact absurd h (by simp)
    · rw [List.find?_cons_of_neg _ (by simp [hx])] at h
      simp [mapFirst, hx, ih h]

theorem map_mapFirst (q : α → Bool) (f : α → α) (g : α → β) (l : List α)
    (h : ∀ x, g (f x) = g x) : (mapFirst q f l).map g = l.map g := by
  induction l with
  | nil => rfl
  | cons x xs ih =>
    by_cases hx : q x
    · simp [mapFirst, hx, h]
    · simp [mapFirst, hx, ih]

theorem find?_mapFirst (q : α → Bool) (f : α → α) (l : List α) (a : α)
    (h : l.find? q = some a) (hf : q (f a) = true) :
    (mapFirst q f l).find? q = some (f a) := by
  induction l with
  | nil => simp [List.find?] at h
  | cons x xs ih =>
    by_cases hx : q x
    · rw [List.find?_cons_of_pos _ hx] at h
      injection h with h; subst h
      simp [mapFirst, hx, List.find?_cons_of_pos _ hf]
    · rw [List.find?_cons_of_neg _ (by simp [hx])] at h
      simp [mapFirst, hx, List.find?_cons_of_neg, ih h]

theorem getProperty_eq_find? (props : List IProperty) (n : String) (t : PropType) :
    getProperty props n t = props.find? (visibleMatch n t) := by
  induction props with
  | nil => rfl
  | cons p rest ih =>
    by_cases h1 : t ≠ p.ptype ∧ t ≠ PropType.Unknown
    · have hv : ¬ (visibleMatch n t p = true) := by
        simp only [visibleMatch, decide_eq_true_eq]
        rintro ⟨h | h, -⟩ <;> simp_all
      rw [show getProperty (p :: rest) n t = getProperty rest n t from by
            simp [getProperty, h1],
          List.find?_cons_of_neg _ hv, ih]
    · have htyp : t = p.ptype ∨ t = PropType.Unknown := by
        rcases not_and_or.mp h1 with h | h
        · exact Or.inl (not_not.mp h)
        · exact Or.inr (not_not.mp h)
      by_cases h2 : p.registered = false
      · have hv : ¬ (visibleMatch n t p = true) := by
          simp only [visibleMatch, decide_eq_true_eq]
          rintro ⟨-, hr, -⟩
          simp_all
        rw [show getProperty (p :: rest) n t = getProperty rest n t from by
              simp [getProperty, h1, h2],
            List.find?_cons_of_neg _ hv, ih]
      · have hreg : p.registered = true := by simpa using h2
        by_cases h3 : p.name = n
        · have hv : visibleMatch n t p = true := by
            simp only [visibleMatch, decide_eq_true_eq]
            exact ⟨htyp, hreg, h3⟩
          rw [show getProperty (p :: rest) n t = some p from by
                simp [getProperty, h1, h2, h3],
              List.find?_cons_of_pos _ hv]
        · have hv : ¬ (visibleMatch n t p = true) := by
            simp only [visibleMatch, decide_eq_true_eq]
            rintro ⟨-, -, hn⟩
            exact h3 hn
          rw [show getProperty (p :: rest) n t = getProperty rest n t from by
                simp [getProperty, h1, h2, h3],
              List.find?_cons_of_neg _ hv, ih]

theorem applyChild_name (t : PropType) (c : SetChild) (w : Widget) :
    (applyChild t c w).name = w.name := by
  cases t <;> rfl

theorem applyUpdates_cons (t : PropType) (c : SetChild) (cs : List SetChild)
    (ws : List Widget) :
    applyUpdates t (c :: cs) ws =
      applyUpdates t cs (mapFirst (fun w => w.name == c.nameAttr.getD "") (applyChild t c) ws) :=
  rfl

theorem applyUpdates_map_name (t : PropType) (children : List SetChild) (ws : List Widget) :
    (applyUpdates t children ws).map (fun w => w.name) = ws.map (fun w => w.name) := by
  induction children generalizing ws with
  | nil => rfl
  | cons c cs ih =>
    rw [applyUpdates_cons, ih, map_mapFirst _ _ _ _ (fun x => applyChild_name t c x)]

theorem getProperty_append_single (props : List IProperty) (n : String) (t : PropType)
    (p : IProperty) (h : getProperty props n t = none) :
    getProperty (props ++ [p]) n t = if visibleMatch n t p then some p else none := by
  rw [getProperty_eq_find?] at h ⊢
  rw [List.find?_append, h]
  by_cases hv : visibleMatch n t p
  · simp [List.find?_cons_of_pos _ hv, hv]
  · simp [List.find?_cons_of_neg _ hv, hv, List.find?]

theorem visibleMatch_self (p : IProperty) :
    visibleMatch p.name p.ptype p = p.registered := by
  cases h : p.registered <;> simp [visibleMatch, h]

theorem setRegisteredOnFirst_eq_self (n : String) (t : PropType) (props : List IProperty) :
    setRegisteredOnFirst n t props = props := by
  induction props with
  | nil => rfl
  | cons p rest ih =>
    by_cases h : visibleMatch n t p
    · have hr : p.registered = true := by
        have := h
        simp only [visibleMatch, decide_eq_true_eq] at this
        exact this.2.1
      have hp : { p with registered := true } = p := by
        cases p
        simp_all
      simp [setRegisteredOnFirst, mapFirst, h, hp]
    · simp only [setRegisteredOnFirst, mapFirst, if_neg h]
      rw [show mapFirst (visibleMatch n t) (fun q => { q with registered := true }) rest =
            setRegisteredOnFirst n t rest from rfl, ih]

theorem mem_mapFirst_of_ne (q : α → Bool) (f : α → α) (l : List α) (v : α)
    (hv : v ∈ l) (hq : q v = false) : v ∈ mapFirst q f l := by
  induction l with
  | nil => simp at hv
  | cons x xs ih =>
    by_cases hx : q x
    · rcases List.mem_cons.mp hv with rfl | h
      · rw [hx] at hq
        cases hq
      · simp only [mapFirst, if_pos hx]
        exact List.mem_cons_of_mem _ h
    · rcases List.mem_cons.mp hv with rfl | h
      · simp [mapFirst, hx]
      · simp only [mapFirst, if_neg hx]
        exact List.mem_cons_of_mem _ (ih h)

theorem getProperty_of_name_free (props : List IProperty) (n : String) (t : PropType)
    (h : props.any (fun q => q.name == n) = false) :
    getProperty props n t = none := by
  rw [getProperty_eq_find?]
  apply List.find?_eq_none.mpr
  intro q hq hv
  have hfree := List.any_eq_false.mp h q hq
  simp only [visibleMatch, decide_eq_true_eq] at hv
  exact hfree (by simp [hv.2.2])

theorem map_mapFirst_found (q : α → Bool) (f : α → α) (g : α → β) (l : List α) (a : α)
    (h : l.find? q = some a) (hg : g (f a) = g a) : (mapFirst q f l).map g = l.map g := by
  induction l with
  | nil => simp [List.find?] at h
  | cons x xs ih =>
    by_cases hx : q x
    · rw [List.find?_cons_of_pos _ hx] at h
      injection h with h; subst h
      simp [mapFirst, hx, hg]
    · rw [List.find?_cons_of_neg _ hx] at h
      simp [mapFirst, hx, ih h]

theorem checkMessage_pAll (s : BaseDeviceState) (m : Option String) :
    (checkMessage s m).fst.pAll = s.pAll := by
  cases m <;> rfl

theorem checkMessage_deviceName (s : BaseDeviceState) (m : Option String) :
    (checkMessage s m).fst.deviceName = s.deviceName := by
  cases m <;> rfl

theorem checkMessage_hasMediator (s : BaseDeviceState) (m : Option String) :
    (checkMessage s m).fst.hasMediator = s.hasMediator := by
  cases m <;> rfl

theorem addProperty_deviceName (s : BaseDeviceState) (p : IProperty) :
    (addProperty s p).fst.deviceName = s.deviceName := by
  unfold addProperty
  split <;> rfl

theorem addProperty_of_nameTaken (s : BaseDeviceState) (p : IProperty)
    (h : s.pAll.any (fun q => q.name == p.name) = true) :
    addProperty s p = (s, []) := by
  unfold addProperty
  rw [if_pos h]

theorem addProperty_of_fresh (s : BaseDeviceState) (p : IProperty)
    (h : ¬ s.pAll.any (fun q => q.name == p.name) = true) :
    (addProperty s p).fst = { s with pAll := s.pAll ++ [p] } := by
  unfold addProperty
  rw [if_neg h]

theorem mem_addProperty (s : BaseDeviceState) (q p : IProperty)
    (hp : p ∈ (addProperty s q).fst.pAll) : p ∈ s.pAll ∨ p = q := by
  unfold addProperty at hp
  split at hp
  · exact Or.inl hp
  · rcases List.mem_append.mp hp with h | h
    · exact Or.inl h
    · exact Or.inr (List.mem_singleton.mp h)

theorem buildWidgets_names (t : PropType) (children : List DefChild) :
    ∀ w ∈ buildWidgets t children, w.name ≠ "" := by
  intro w hw
  simp only [buildWidgets, List.mem_filterMap] at hw
  obtain ⟨c, _, hcw⟩ := hw
  by_cases h : (defWidget t c).name = ""
  · simp [h] at hcw
  · simp only [if_neg h] at hcw
    cases hcw
    exact h

/-! Claim theorems. -/

/-- C9: `getProperty` never returns a property whose registered flag is false —
a ghost entry (`registered = false`) is invisible to lookup, the lookup returns
the first matching registered property (`find?` over the visibility test), and
the typed getters `getNumber`/`getText`/`getSwitch`/`getLight`/`getBLOB` are
this lookup at the respective kind. -/
theorem getProperty_skips_unregistered (props : List IProperty) (n : String) (t : PropType) :
    (∀ p, getProperty props n t = some p → p.registered = true)
    ∧ getProperty props n t = props.find? (visibleMatch n t)
    ∧ getNumber props n = getProperty props n PropType.Number
    ∧ getText props n = getProperty props n PropType.Text
    ∧ getSwitch props n = getProperty props n PropType.Switch
    ∧ getLight props n = getProperty props n PropType.Light
    ∧ getBLOB props n = getProperty props n PropType.Blob := by
  refine ⟨?_, getProperty_eq_find? props n t, rfl, rfl, rfl, rfl, rfl⟩
  intro p hp
  rw [getProperty_eq_find?] at hp
  have hv := List.find?_some hp
  simp only [visibleMatch, decide_eq_true_eq] at hv
  exact hv.2.1

/-- Witness for C9: in a registry holding a ghost `P` before a registered `P`,
lookup skips the ghost and returns the registered entry; its flag is true. -/
theorem getProperty_skips_unregistered_witness :
    getProperty [exGhost, exLive] "P" PropType.Unknown = some exLive
    ∧ exLive.registered = true := by
  refine ⟨by decide, ?_⟩
  exact (getProperty_skips_unregistered [exGhost, exLive] "P" PropType.Unknown).1 exLive
    (by decide)

/-- C6: update elements are applied only to widgets that already exist: a child
element whose name matches no widget of the property leaves the widget list
untouched, and `applyUpdates` (the `for_property` helper) preserves the widget
name list — names, count, and order are identical before and after. -/
theorem applyUpdates_preserves_shape (t : PropType) (children : List SetChild)
    (ws : List Widget) :
    (applyUpdates t children ws).map (fun w => w.name) = ws.map (fun w => w.name)
    ∧ ∀ c, findWidgetByName ws (c.nameAttr.getD "") = none →
        mapFirst (fun w => w.name == c.nameAttr.getD "") (applyChild t c) ws = ws := by
  refine ⟨applyUpdates_map_name t children ws, ?_⟩
  intro c hc
  exact mapFirst_of_find?_none _ _ _ hc

/-- Witness for C6: a child addressing the unknown widget name `Y` leaves the
single-widget list `[T]` unchanged, and the name list is preserved. -/
theorem applyUpdates_preserves_shape_witness :
    (applyUpdates PropType.Number [exChildY] [exNumWidget]).map (fun w => w.name) = ["T"]
    ∧ mapFirst (fun w => w.name == exChildY.nameAttr.getD "") (applyChild PropType.Number exChildY)
        [exNumWidget] = [exNumWidget] := by
  constructor
  · have h := (applyUpdates_preserves_shape PropType.Number [exChildY] [exNumWidget]).1
    rw [h]
    decide
  · exact (applyUpdates_preserves_shape PropType.Number [exChildY] [exNumWidget]).2 exChildY
      (by decide)

/-- C2: a definition element whose property name already exists in the device is
rejected: `buildProp` returns the duplicate code, the element is dropped with no
mediator/watch activity, and the registry is left exactly as it was — so any
subsequent lookup returns the original property with its original widget
values. -/
theorem buildProp_duplicate_rejected (s : BaseDeviceState) (el : DefElement) (dyn : Bool)
    (hdev : el.device ≠ none) (hnm : el.name ≠ none)
    (htag : (defTagType el.tag).isSome = true)
    (hdup : (getProperty s.pAll (el.name.getD "") PropType.Unknown).isSome = true) :
    buildProp s el dyn = (s, [], BuildRet.duplicatedRet) := by
  unfold buildProp
  rw [if_neg (by simp [hdev, hnm])]
  obtain ⟨t, ht⟩ := Option.isSome_iff_exists.mp htag
  rw [ht]
  simp only [hdup, if_pos]

/-- Witness for C2: defining `TEMP` (widget value 5) and then re-defining `TEMP`
with value 9 returns the duplicate code and leaves the registry unchanged;
lookup still yields widget value 5. -/
theorem buildProp_duplicate_rejected_witness :
    (getProperty exStateTemp.pAll "TEMP" PropType.Unknown).isSome = true
    ∧ buildProp exStateTemp (exDefTemp 9) false = (exStateTemp, [], BuildRet.duplicatedRet)
    ∧ (getProperty exStateTemp.pAll "TEMP" PropType.Number).map
        (fun p => p.widgets.map (fun w => w.value)) = some [5] := by
  refine ⟨by decide, ?_, by decide⟩
  exact buildProp_duplicate_rejected exStateTemp (exDefTemp 9) false
    (by decide) (by decide) (by decide) (by decide)

/-- C5: widgets with an empty name are never added when building a property from
a definition element, and a definition whose resulting widget list is empty is
rejected non-fatally: the return code is the ordinary `0`, no events fire, and
no property is added to the registry. Every property present after `buildProp`
is either an old entry or contains only widgets with non-empty names. -/
theorem buildProp_empty_widgets (s : BaseDeviceState) (el : DefElement) (dyn : Bool)
    (t : PropType)
    (hdev : el.device ≠ none) (hnm : el.name ≠ none)
    (htag : defTagType el.tag = some t)
    (hdup : getProperty s.pAll (el.name.getD "") PropType.Unknown = none) :
    (∀ w ∈ buildWidgets t el.children, w.name ≠ "")
    ∧ (buildWidgets t el.children = [] →
        (buildProp s el dyn).snd.snd = BuildRet.zeroRet
        ∧ (buildProp s el dyn).fst.pAll = s.pAll
        ∧ (buildProp s el dyn).snd.fst = [])
    ∧ (∀ p ∈ (buildProp s el dyn).fst.pAll, p ∈ s.pAll ∨ ∀ w ∈ p.widgets, w.name ≠ "") := by
  have hred : buildProp s el dyn = (
      let s1 := if s.deviceName = "" then { s with deviceName := el.device.getD "" } else s
      let ws := buildWidgets t el.children
      if ws.isEmpty then (s1, [], BuildRet.zeroRet)
      else
        let property : IProperty :=
          { name := el.name.getD ""
            deviceName := s1.deviceName
            label := el.label
            group := el.group
            ptype := t
            perm := if t ≠ PropType.Light then el.perm else IPerm.RO
            state := (el.stateTok.bind crackIPState).getD IPState.Idle
            timeout := el.timeoutVal.getD 0
            registered := true
            dynamic := dyn
            widgets := ws }
        let r := addProperty s1 property
        (r.fst,
         r.snd ++ (if r.fst.hasMediator then [Event.newProperty property.name] else []),
         BuildRet.zeroRet)) := by
    unfold buildProp
    rw [if_neg (by simp [hdev, hnm]), htag]
    simp only [hdup, Option.isSome_none, Bool.false_eq_true, if_false]
  have hs1pAll : (if s.deviceName = "" then { s with deviceName := el.device.getD "" } else s).pAll
      = s.pAll := by
    split <;> rfl
  refine ⟨buildWidgets_names t el.children, ?_, ?_⟩
  · intro hempty
    rw [hred]
    simp [hempty, hs1pAll]
  · intro p hp
    rw [hred] at hp
    by_cases hempty : (buildWidgets t el.children).isEmpty
    · simp only [hempty, if_pos] at hp
      rw [hs1pAll] at hp
      exact Or.inl hp
    · simp only [hempty, Bool.false_eq_true, if_false] at hp
      rcases mem_addProperty _ _ _ hp with hold | rfl
      · rw [hs1pAll] at hold
        exact Or.inl hold
      · exact Or.inr (buildWidgets_names t el.children)

/-- Witness for C5: a definition all of whose children carry an empty name
builds an empty widget list, is dropped with return code 0, and adds nothing. -/
theorem buildProp_empty_widgets_witness :
    buildWidgets PropType.Text exDefEmptyNames.children = []
    ∧ (buildProp emptyDevice exDefEmptyNames false).snd.snd = BuildRet.zeroRet
    ∧ (buildProp emptyDevice exDefEmptyNames false).fst.pAll = [] := by
  have h := (buildProp_empty_widgets emptyDevice exDefEmptyNames false PropType.Text
    (by decide) (by decide) (by decide) (by decide)).2.1 (by decide)
  exact ⟨by decide, h.1, h.2.1⟩

/-- C1 (amended): an update element carrying an invalid state token fails with a
`StateError` and no widget value is mutated, every property's timeout (and
widget list) is unchanged — but, because `setValue` executes
`property.setState(...toIPState(&ok))` before testing `ok`, the addressed
property's state field is overwritten with the parser's Idle fallback before
the failure return, rather than being left at its previous value. -/
theorem setValue_invalid_state_token (inflate : Nat → List Nat → Nat → Except Int (List Nat))
    (env : Nat → List Nat) (s : BaseDeviceState) (el : SetElement)
    (t : PropType) (nm tok : String) (p : IProperty)
    (hnm : el.name = some nm) (htag : setTagType el.tag = some t)
    (htok : el.stateTok = some tok) (hbad : crackIPState tok = none)
    (hfound : getProperty s.pAll nm t = some p) :
    (setValue inflate env s el).err = some (DevError.stateError tok)
    ∧ (setValue inflate env s el).dstate.pAll.map (fun q => q.widgets)
        = s.pAll.map (fun q => q.widgets)
    ∧ (setValue inflate env s el).dstate.pAll.map (fun q => q.timeout)
        = s.pAll.map (fun q => q.timeout)
    ∧ getProperty (setValue inflate env s el).dstate.pAll nm t
        = some { p with state := IPState.Idle } := by
  have hfound1 : getProperty (checkMessage s el.message).fst.pAll nm t = some p := by
    rw [checkMessage_pAll]; exact hfound
  have hred : setValue inflate env s el =
      { dstate := { (checkMessage s el.message).fst with
          pAll := mapFirst (visibleMatch nm t) (fun _ => { p with state := IPState.Idle })
            (checkMessage s el.message).fst.pAll },
        events := (checkMessage s el.message).snd,
        err := some (DevError.stateError tok) } := by
    unfold setValue
    rw [hnm]
    have hb : el.stateTok.bind crackIPState = none := by
      rw [htok]
      exact hbad
    have hg : el.stateTok.getD "" = tok := by rw [htok]; rfl
    simp only [htag, hfound1, hb, hg]
  have hfind : (checkMessage s el.message).fst.pAll.find? (visibleMatch nm t) = some p := by
    rw [← getProperty_eq_find?]; exact hfound1
  refine ⟨by rw [hred], ?_, ?_, ?_⟩
  · rw [hred]
    show (mapFirst (visibleMatch nm t) _ (checkMessage s el.message).fst.pAll).map _ = _
    rw [map_mapFirst_found _ _ _ _ _ hfind rfl, checkMessage_pAll]
  · rw [hred]
    show (mapFirst (visibleMatch nm t) _ (checkMessage s el.message).fst.pAll).map _ = _
    rw [map_mapFirst_found _ _ _ _ _ hfind rfl, checkMessage_pAll]
  · rw [hred]
    show getProperty (mapFirst (visibleMatch nm t) _ (checkMessage s el.message).fst.pAll) nm t = _
    rw [getProperty_eq_find?]
    have hv : visibleMatch nm t { p with state := IPState.Idle } = true := by
      have := List.find?_some hfind
      simpa [visibleMatch] using this
    exact find?_mapFirst _ _ _ _ hfind hv

/-- Witness for C1: the concrete device `exStateC1` with the bogus-token update
`exElemBogus`: the call errors with `StateError "Bogus"`, widgets and timeouts
are untouched, and the looked-up property has been reset to Idle. -/
theorem setValue_invalid_state_token_witness :
    (setValue inflateFail envEmpty exStateC1 exElemBogus).err
        = some (DevError.stateError "Bogus")
    ∧ getProperty (setValue inflateFail envEmpty exStateC1 exElemBogus).dstate.pAll
        "P" PropType.Number = some { exPropOk with state := IPState.Idle } := by
  have h := setValue_invalid_state_token inflateFail envEmpty exStateC1 exElemBogus
    PropType.Number "P" "Bogus" exPropOk rfl (by decide) rfl (by decide) (by decide)
  exact ⟨h.1, h.2.2.2⟩

/-- Counterexample to C1 as stated: on the invalid state token the operation
does fail, but the property's state is not left unchanged — it flips from Ok
to the parser's Idle fallback. -/
theorem setValue_invalid_state_token_cex :
    (setValue inflateFail envEmpty exStateC1 exElemBogus).err.isSome = true
    ∧ exStateC1.pAll.map (fun p => p.state) = [IPState.Ok]
    ∧ (setValue inflateFail envEmpty exStateC1 exElemBogus).dstate.pAll.map (fun p => p.state)
        = [IPState.Idle] := by
  decide

/-- C3 (amended): once the device's name is set, no inbound element changes it —
`buildProp` adopts a name only when the stored name is still empty and
`setValue` never touches it, so the registry stays bound to one device name.
However, an element carrying a different device attribute is not rejected: it
is processed normally against the bound device (see the counterexample). -/
theorem deviceName_binding (inflate : Nat → List Nat → Nat → Except Int (List Nat))
    (env : Nat → List Nat) (s : BaseDeviceState) (h : s.deviceName ≠ "") :
    (∀ del dyn, (buildProp s del dyn).fst.deviceName = s.deviceName)
    ∧ (∀ uel, (setValue inflate env s uel).dstate.deviceName = s.deviceName) := by
  constructor
  · intro del dyn
    unfold buildProp
    by_cases h1 : del.device = none ∨ del.name = none
    · rw [if_pos h1]
    · rw [if_neg h1]
      cases ht : defTagType del.tag with
      | none => rfl
      | some t =>
        dsimp only
        by_cases h2 : (getProperty s.pAll (del.name.getD "") PropType.Unknown).isSome = true
        · rw [if_pos h2]
        · rw [if_neg h2, if_neg h]
          by_cases h3 : (buildWidgets t del.children).isEmpty = true
          · rw [if_pos h3]
          · rw [if_neg h3]
            exact addProperty_deviceName s _
  · intro uel
    unfold setValue
    cases hn : uel.name with
    | none => rfl
    | some nm =>
      cases ht : setTagType uel.tag with
      | none => exact checkMessage_deviceName s uel.message
      | some t =>
        simp only [ht]
        cases hp : getProperty (checkMessage s uel.message).fst.pAll nm t with
        | none =>
          simp only [hp]
          exact checkMessage_deviceName s uel.message
        | some p0 =>
          simp only [hp]
          cases hb : uel.stateTok.bind crackIPState with
          | none =>
            simp only [hb]
            exact checkMessage_deviceName s uel.message
          | some st =>
            simp only [hb]
            cases t <;> exact checkMessage_deviceName s uel.message

/-- Witness for C3: a bound device (`A`) with one mismatched definition element
and one update element — neither call changes the stored device name. -/
theorem deviceName_binding_witness :
    exStateA.deviceName = "A"
    ∧ (buildProp exStateA exDefOther false).fst.deviceName = "A"
    ∧ (setValue inflateFail envEmpty exStateA exElemBogus).dstate.deviceName = "A" := by
  have h := deviceName_binding inflateFail envEmpty exStateA (by decide)
  exact ⟨rfl, h.1 exDefOther false, h.2 exElemBogus⟩

/-- Counterexample to C3 as stated: a definition element carrying device
attribute `B`, arriving at a registry bound to `A`, is not rejected — it
returns the ordinary success code and its property is added (under device `A`). -/
theorem deviceName_mismatch_not_rejected_cex :
    (buildProp exStateA exDefOther false).snd.snd = BuildRet.zeroRet
    ∧ (buildProp exStateA exDefOther false).fst.pAll.map (fun p => p.name) = ["Q"]
    ∧ exStateA.pAll = []
    ∧ (buildProp exStateA exDefOther false).fst.deviceName = "A" := by
  decide

/-- C4 (amended): for every BLOB update child whose format ends in `".z"`
(widget present; any payload path — inline base64, shared-buffer direct, or
shared-buffer copy, the installed bytes being `blobPayload`): on successful
inflation the widget holds exactly the inflated bytes with `size` set to their
count and the stored format equal to the format with the `".z"` suffix
stripped; on inflate failure the operation returns a compression error carrying
the underlying zlib code, and the failure affects only that BLOB transfer —
every widget other than the addressed one is left untouched; but the `".z"`
suffix has already been stripped from the stored format before inflation, on
failure as well as on success (the strip is not conditional on success). -/
theorem setBLOB_compressed_format (inflate : Nat → List Nat → Nat → Except Int (List Nat))
    (env : Nat → List Nat) (hm : Bool) (ws : List Widget) (c : SetChild)
    (nm f : String) (n : Nat) (w : Widget)
    (hn : c.nameAttr = some nm) (hf : c.format = some f) (hz : endsWithZ f = true)
    (hs : c.sizeAttr = some n) (hnz : n ≠ 0)
    (hw : findWidgetByName ws nm = some w) :
    (∀ plain, inflate n (blobPayload env c) (blobPayloadLen c) = Except.ok plain →
      processOneBlob inflate env hm ws c =
        { widgets := mapFirst (fun x => x.name == w.name)
            (fun _ => { w with size := plain.length, blob := plain, bloblen := blobPayloadLen c, format := stripZ f }) ws,
          events := if hm then [Event.newBLOB (some w.name)] else [],
          err := none })
    ∧ (∀ r, inflate n (blobPayload env c) (blobPayloadLen c) = Except.error r →
      processOneBlob inflate env hm ws c =
        { widgets := mapFirst (fun x => x.name == w.name)
            (fun _ => { w with size := n, blob := blobPayload env c, bloblen := blobPayloadLen c, format := stripZ f }) ws,
          events := [],
          err := some (DevError.compressionError r) })
    ∧ (∀ r, inflate n (blobPayload env c) (blobPayloadLen c) = Except.error r →
      ∀ v ∈ ws, v.name ≠ nm → v ∈ (processOneBlob inflate env hm ws c).widgets) := by
  have hpres : ¬(c.nameAttr = none ∨ c.format = none ∨ c.sizeAttr = none) := by
    simp [hn, hf, hs]
  have hzero : ¬(c.sizeAttr = some 0) := by
    rw [hs]
    simp [hnz]
  have hwname : w.name = nm := by
    have h := List.find?_some (show ws.find? (fun x => x.name == nm) = some w from hw)
    simp at h
    exact h
  have conj2 : ∀ r, inflate n (blobPayload env c) (blobPayloadLen c) = Except.error r →
      processOneBlob inflate env hm ws c =
        { widgets := mapFirst (fun x => x.name == w.name)
            (fun _ => { w with size := n, blob := blobPayload env c, bloblen := blobPayloadLen c, format := stripZ f }) ws,
          events := [],
          err := some (DevError.compressionError r) } := by
    intro r herr
    unfold processOneBlob
    rw [if_neg hpres, if_neg hzero]
    cases hatt : c.attachedId with
    | none =>
      simp only [blobPayload, blobPayloadLen, hatt] at herr ⊢
      simp only [hn, hf, hs, Option.getD_some, hw, hz, if_true, herr]
    | some uid =>
      cases hd : c.attachDirect <;>
        (simp only [blobPayload, blobPayloadLen, hatt, hd, Bool.false_eq_true,
           eq_self_iff_true, if_true, if_false, hs, Option.getD_some] at herr
         simp only [hn, hf, hs, Option.getD_some, hw, hatt, hd, Bool.false_eq_true,
           eq_self_iff_true, if_true, if_false, hz, herr, blobPayload, blobPayloadLen])
  refine ⟨?_, conj2, ?_⟩
  · intro plain hok
    unfold processOneBlob
    rw [if_neg hpres, if_neg hzero]
    cases hatt : c.attachedId with
    | none =>
      simp only [blobPayload, blobPayloadLen, hatt] at hok ⊢
      simp only [hn, hf, hs, Option.getD_some, hw, hz, if_true, hok]
    | some uid =>
      cases hd : c.attachDirect <;>
        (simp only [blobPayload, blobPayloadLen, hatt, hd, Bool.false_eq_true,
           eq_self_iff_true, if_true, if_false, hs, Option.getD_some] at hok
         simp only [hn, hf, hs, Option.getD_some, hw, hatt, hd, Bool.false_eq_true,
           eq_self_iff_true, if_true, if_false, hz, hok, blobPayload, blobPayloadLen])
  · intro r herr v hv hvn
    rw [conj2 r herr]
    apply mem_mapFirst_of_ne _ _ _ _ hv
    rw [hwname]
    exact beq_eq_false_iff_ne.mpr hvn

/-- Witness for C4: inflating the sample `fits.z` payload with a concrete
inflate function that succeeds with plaintext `[7, 7]`: the widget ends up
holding `[7, 7]`, size 2 and format `fits`. -/
theorem setBLOB_compressed_format_witness :
    inflateOkTwo 3 [1, 2, 3] 3 = Except.ok [7, 7]
    ∧ (processOneBlob inflateOkTwo envEmpty true [exBlobWidget] exBlobChildZ).widgets.map
        (fun w => (w.blob, w.size, w.format)) = [([7, 7], 2, "fits")] := by
  constructor
  · rfl
  · have h := (setBLOB_compressed_format inflateOkTwo envEmpty true [exBlobWidget] exBlobChildZ
      "B" "fits.z" 3 exBlobWidget rfl rfl (by decide) rfl (by decide) (by decide)).1
      [7, 7] rfl
    rw [h]
    decide

/-- Counterexample to C4 as stated: with a failing inflate the operation does
return the compression error with the zlib code, but the stored format has
already been stripped of `.z` (it reads `fits`, not `fits.z`), contradicting
"the `.z` suffix is stripped from the stored format only on success". -/
theorem setBLOB_compressed_format_cex :
    (processOneBlob inflateFail envEmpty true [exBlobWidget] exBlobChildZ).err
        = some (DevError.compressionError (-3))
    ∧ (processOneBlob inflateFail envEmpty true [exBlobWidget] exBlobChildZ).widgets.map
        (fun w => w.format) = ["fits"] := by
  decide

/-- C7: a BLOB update child with a zero size attribute (and name/format/size all
present) is a no-op on every widget — buffer, length, size and format are all
unchanged because the widget list is returned untouched — and the dispatcher's
BLOB callback is still invoked for that widget. -/
theorem setBLOB_zero_size_noop (inflate : Nat → List Nat → Nat → Except Int (List Nat))
    (env : Nat → List Nat) (ws : List Widget) (c : SetChild) (nm f : String)
    (hn : c.nameAttr = some nm) (hf : c.format = some f) (hs : c.sizeAttr = some 0) :
    processOneBlob inflate env true ws c =
      { widgets := ws,
        events := [Event.newBLOB ((findWidgetByName ws nm).map (fun w => w.name))],
        err := none } := by
  have hpres : ¬(c.nameAttr = none ∨ c.format = none ∨ c.sizeAttr = none) := by
    simp [hn, hf, hs]
  unfold processOneBlob
  rw [if_neg hpres, if_pos hs]
  simp [hn]

/-- Witness for C7: the zero-size child `exBlobChildZero` leaves the widget list
`[exBlobWidget]` unchanged and fires `newBLOB` for widget `B`. -/
theorem setBLOB_zero_size_noop_witness :
    processOneBlob inflateFail envEmpty true [exBlobWidget] exBlobChildZero =
      { widgets := [exBlobWidget],
        events := [Event.newBLOB (some "B")],
        err := none } := by
  have h := setBLOB_zero_size_noop inflateFail envEmpty [exBlobWidget] exBlobChildZero
    "B" "fits" rfl rfl rfl
  rw [h]
  decide

/-- C10: processing a BLOB update child with a nonzero size attribute (name,
format and size all present) dereferences the looked-up widget without a null
check: if the child's name matches no existing widget the code path reaches the
invalid null-widget access, and if a widget of that name exists the invalid
access can never occur. -/
theorem setBLOB_null_widget_access (inflate : Nat → List Nat → Nat → Except Int (List Nat))
    (env : Nat → List Nat) (hm : Bool) (ws : List Widget) (c : SetChild)
    (nm : String) (n : Nat)
    (hn : c.nameAttr = some nm) (hf : c.format ≠ none) (hs : c.sizeAttr = some n)
    (hnz : n ≠ 0) :
    (findWidgetByName ws nm = none →
      processOneBlob inflate env hm ws c =
        { widgets := ws, events := [], err := some DevError.nullWidgetAccess })
    ∧ (∀ w, findWidgetByName ws nm = some w →
      (processOneBlob inflate env hm ws c).err ≠ some DevError.nullWidgetAccess) := by
  have hpres : ¬(c.nameAttr = none ∨ c.format = none ∨ c.sizeAttr = none) := by
    simp [hn, hf, hs]
  have hzero : ¬(c.sizeAttr = some 0) := by
    rw [hs]
    simp [hnz]
  constructor
  · intro hnone
    unfold processOneBlob
    rw [if_neg hpres, if_neg hzero]
    simp only [hn, Option.getD_some, hnone]
  · intro w hsome
    unfold processOneBlob
    rw [if_neg hpres, if_neg hzero]
    simp only [hn, Option.getD_some, hsome]
    split
    · split <;> simp
    · simp

/-- Witness for C10: the compressed sample child addressed at a widget list
without a widget named `B` reaches the null-widget access; with the widget
present the error is a compression error, not the null access. -/
theorem setBLOB_null_widget_access_witness :
    processOneBlob inflateFail envEmpty true [exNumWidget] exBlobChildZ =
      { widgets := [exNumWidget], events := [], err := some DevError.nullWidgetAccess }
    ∧ (processOneBlob inflateFail envEmpty true [exBlobWidget] exBlobChildZ).err
        ≠ some DevError.nullWidgetAccess := by
  constructor
  · exact (setBLOB_null_widget_access inflateFail envEmpty true [exNumWidget] exBlobChildZ
      "B" 3 rfl (by decide) rfl (by decide)).1 (by decide)
  · exact (setBLOB_null_widget_access inflateFail envEmpty true [exBlobWidget] exBlobChildZ
      "B" 3 rfl (by decide) rfl (by decide)).2 exBlobWidget (by decide)

/-- C8 (amended): `registerProperty` is idempotent — calling it twice with the
same property leaves the registry in the same state as calling it once — and
when the name is free it adds the property fresh: the new entry is appended to
the registry and the matching watch callback fires. However, because
`getProperty` skips entries with `registered = false`, an existing ghost entry
of the same name and kind is never found, so it is not marked
`registered = true`: `addProperty` is invoked instead and, the name being
taken, the registry is left entirely unchanged. -/
theorem registerProperty_idem (s : BaseDeviceState) (p : IProperty) :
    (registerProperty (registerProperty s p).fst p).fst = (registerProperty s p).fst
    ∧ (p.ptype ≠ PropType.Unknown →
        s.pAll.any (fun q => q.name == p.name) = false →
        registerProperty s p =
          ({ s with pAll := s.pAll ++ [p] },
           if s.watchedNames.contains p.name then [Event.watchCallback p.name] else []))
    ∧ (getProperty s.pAll p.name p.ptype = none →
        (∃ q ∈ s.pAll, q.name = p.name) →
        (registerProperty s p).fst = s) := by
  have hfound : ∀ (s' : BaseDeviceState), p.ptype ≠ PropType.Unknown →
      (getProperty s'.pAll p.name p.ptype).isSome = true →
      (registerProperty s' p).fst = s' := by
    intro s' hU hS
    unfold registerProperty
    rw [if_neg hU]
    obtain ⟨q, hq⟩ := Option.isSome_iff_exists.mp hS
    rw [hq]
    show ({ s' with pAll := setRegisteredOnFirst p.name p.ptype s'.pAll } : BaseDeviceState) = s'
    rw [setRegisteredOnFirst_eq_self]
  have hdup : ∀ (s' : BaseDeviceState), p.ptype ≠ PropType.Unknown →
      getProperty s'.pAll p.name p.ptype = none →
      s'.pAll.any (fun q => q.name == p.name) = true →
      (registerProperty s' p).fst = s' := by
    intro s' hU hN hA
    unfold registerProperty
    rw [if_neg hU, hN]
    show (addProperty s' p).fst = s'
    rw [addProperty_of_nameTaken _ _ hA]
  have conj2 : getProperty s.pAll p.name p.ptype = none →
      (∃ q ∈ s.pAll, q.name = p.name) → (registerProperty s p).fst = s := by
    rintro hN ⟨q, hqmem, hqname⟩
    by_cases hU : p.ptype = PropType.Unknown
    · unfold registerProperty
      rw [if_pos hU]
    · exact hdup s hU hN (List.any_eq_true.mpr ⟨q, hqmem, by simp [hqname]⟩)
  have freshc : p.ptype ≠ PropType.Unknown →
      s.pAll.any (fun q => q.name == p.name) = false →
      registerProperty s p =
        ({ s with pAll := s.pAll ++ [p] },
         if s.watchedNames.contains p.name then [Event.watchCallback p.name] else []) := by
    intro hU hfree
    unfold registerProperty
    rw [if_neg hU, getProperty_of_name_free s.pAll p.name p.ptype hfree]
    show addProperty s p = _
    unfold addProperty
    rw [if_neg (by rw [hfree]; exact Bool.false_ne_true)]
  refine ⟨?_, freshc, conj2⟩
  by_cases hU : p.ptype = PropType.Unknown
  · have h1 : registerProperty s p = (s, []) := by
      unfold registerProperty
      rw [if_pos hU]
    rw [h1, h1]
  · cases hG : getProperty s.pAll p.name p.ptype with
    | some q =>
      have h1 : (registerProperty s p).fst = s := hfound s hU (by rw [hG]; rfl)
      rw [h1]
      exact h1
    | none =>
      by_cases hA : s.pAll.any (fun q => q.name == p.name) = true
      · have h1 : (registerProperty s p).fst = s := hdup s hU hG hA
        rw [h1]
        exact h1
      · have h1 : (registerProperty s p).fst = { s with pAll := s.pAll ++ [p] } := by
          unfold registerProperty
          rw [if_neg hU, hG]
          show (addProperty s p).fst = _
          exact addProperty_of_fresh s p hA
        rw [h1]
        have hGP : getProperty ({ s with pAll := s.pAll ++ [p] } : BaseDeviceState).pAll p.name p.ptype
            = if visibleMatch p.name p.ptype p then some p else none := by
          show getProperty (s.pAll ++ [p]) p.name p.ptype = _
          exact getProperty_append_single s.pAll p.name p.ptype p hG
        by_cases hR : p.registered = true
        · exact hfound _ hU (by rw [hGP, visibleMatch_self, hR]; rfl)
        · refine hdup _ hU ?_ ?_
          · rw [hGP, visibleMatch_self]
            simp [hR]
          · refine List.any_eq_true.mpr ⟨p, ?_, by simp⟩
            show p ∈ s.pAll ++ [p]
            exact List.mem_append.mpr (Or.inr (List.mem_singleton.mpr rfl))

/-- Witness for C8: on an empty registry `registerProperty` adds the property
fresh (the registry afterwards holds exactly it); on the ghost registry the
name+kind lookup misses and the name is taken, so `registerProperty` leaves
the registry exactly as it was. -/
theorem registerProperty_idem_witness :
    (registerProperty emptyDevice exLive).fst.pAll = [exLive]
    ∧ getProperty exStateGhost.pAll "P" PropType.Number = none
    ∧ (registerProperty exStateGhost exLive).fst = exStateGhost := by
  refine ⟨?_, by decide, ?_⟩
  · have h := (registerProperty_idem emptyDevice exLive).2.1 (by decide) (by decide)
    rw [h]
    rfl
  · exact (registerProperty_idem exStateGhost exLive).2.2 (by decide)
      ⟨exGhost, show exGhost ∈ [exGhost] from List.mem_singleton.mpr rfl, rfl⟩

/-- Counterexample to C8 as stated: a ghost entry of the same name and kind
(`P`, Number, `registered = false`) already exists, yet after `registerProperty`
it is still not marked registered (and nothing was added): the claimed
"marks that entry registered=true" does not happen. -/
theorem registerProperty_ghost_cex :
    exStateGhost.pAll.map (fun q => (q.name, q.ptype, q.registered))
        = [("P", PropType.Number, false)]
    ∧ (registerProperty exStateGhost exLive).fst.pAll.map
        (fun q => (q.name, q.ptype, q.registered)) = [("P", PropType.Number, false)] := by
  decide

end INDI
